import Mathlib

/-!
# Verification of the EphProject 2D rendering core

Shallow embedding of the core of the EphProject repository
(texture-atlas layer packing, geometry batching, state-diffed draw
submission) together with proofs of the testable properties stated in
its specification.

The embedding follows the C++ sources:

* `VertexArray.cpp` / `VertexArray.hpp` — the geometry batch
  (`add_textured_rect`, `build`, the index pattern and the running
  vertex counter);
* `IndicesData.hpp` — the drawable handle `{mode, count, offset}`;
* `Texture2dArray.cpp` (in `Sprite.hpp`'s translation unit) — atlas
  creation, the hardware-limit checks and the global texture-unit
  counter `free_texture_images_unit_`;
* `Texture2dArrayLayer.cpp` — `add_texture` (sub-image upload), its
  channel-count check and the `GL_UNPACK_SKIP_ROWS` computation;
* `Renderer.cpp` — `draw_sprite` with its function-local static
  state-diff cache.

GPU-side effects are modelled as an explicit trace of emitted commands
(`GLCmd`); fatal `LOG_ERROR` paths (which print and `exit`) are
modelled as `Except` errors classified by the specification's error
kinds, emitted before any of the effects that follow them in the
source. Float payloads (vertex positions, UV coordinates, draw
positions and sizes) are carried opaquely as rationals: the modelled
code only stores and forwards them, never computes with them.
-/

namespace EphProject

/-- OpenGL symbolic constants used by the modelled code. -/
def GL_TEXTURE0 : Nat := 0x84C0

def GL_TRIANGLES : Nat := 4

def GL_RGBA : Nat := 0x1908

def GL_RGB : Nat := 0x1907

/-- 32-bit modulus for `unsigned int` arithmetic. -/
def UINT_MOD : Nat := 2 ^ 32

/-! ## Geometry batch (`VertexArray`) -/

/-- CPU-side state of a `VertexArray` (the geometry batch):
the three staging sequences `vertices_`, `texture_vertices_`,
`indices_` and the running counter `next_free_index_number_`
(a C++ `unsigned int`, kept below `2^32`). -/
structure VertexArray where
  vertices : List ℚ
  texture_vertices : List ℚ
  indices : List Nat
  next_free_index_number : Nat
  deriving Repr, DecidableEq

/-- `VertexArray::VertexArray()`: all buffers empty,
`next_free_index_number_ = 0`. -/
def VertexArray.init : VertexArray :=
  { vertices := []
    texture_vertices := []
    indices := []
    next_free_index_number := 0 }

/-- The index-generation loop of `VertexArray::add_textured_rect`:
for each rectangle push
`n, n+1, n+3, n+1, n+2, n+3` and advance `n` by `4`, all in
`unsigned int` (mod `2^32`) arithmetic.  Returns the generated
indices and the final counter. -/
def rectIndicesLoop : Nat → Nat → List Nat × Nat
  | n, 0 => ([], n)
  | n, i + 1 =>
      let block := [n % UINT_MOD, (n + 1) % UINT_MOD, (n + 3) % UINT_MOD,
                    (n + 1) % UINT_MOD, (n + 2) % UINT_MOD, (n + 3) % UINT_MOD]
      let rest := rectIndicesLoop ((n + 4) % UINT_MOD) i
      (block ++ rest.1, rest.2)

/-- `VertexArray::add_textured_rect(vertices, texture_vertices)`:
`rects_number = vertices.size() / 8`; append the received vertices and
texture vertices to the staging sequences; for each rectangle generate
six indices in the fan pattern and advance the counter by four. -/
def add_textured_rect (va : VertexArray) (vertices texture_vertices : List ℚ) :
    VertexArray :=
  let rects_number := vertices.length / 8
  let gen := rectIndicesLoop va.next_free_index_number rects_number
  { vertices := va.vertices ++ vertices
    texture_vertices := va.texture_vertices ++ texture_vertices
    indices := va.indices ++ gen.1
    next_free_index_number := gen.2 }

/-- `VertexArray::build()`: uploads the three staging sequences to the
GPU and clears them (`vertices_.clear()` etc.).  The counter
`next_free_index_number_` is left untouched. -/
def build (va : VertexArray) : VertexArray :=
  { va with vertices := [], texture_vertices := [], indices := [] }

/-- `IndicesData` (`IndicesData.hpp`): the drawable handle
`{mode_, count_, offset_}` — arguments for `glDrawElements`.  The
`void* offset` is modelled as a byte count. -/
structure IndicesData where
  mode : Nat
  count : Nat
  offset : Nat
  deriving Repr, DecidableEq

/-- Modelled from the spec: the body of
`VertexArray::add_textured_rects` — declared in `VertexArray.hpp` as
returning an `IndicesData*` and called from `Core.cpp` — is absent
from the sources (only the handle-less `add_textured_rect` body is
present in `VertexArray.cpp`).  Per the spec, the call appends the
geometry exactly as `add_textured_rect` does and returns a
`DrawableHandle{mode: triangles, count: 6k, byteOffset:
indices-already-queued * sizeof(uint32)}` where `k` is the number of
quads in the call. -/
def add_textured_rects (va : VertexArray) (vertices texture_vertices : List ℚ) :
    VertexArray × IndicesData :=
  (add_textured_rect va vertices texture_vertices,
   { mode := GL_TRIANGLES
     count := 6 * (vertices.length / 8)
     offset := va.indices.length * 4 })

/-- The vertex positions of the first composition in `Core.cpp`
(`vertices_1`), used as the concrete one-rectangle input. -/
def rectPos : List ℚ := [1, 0, 1, 1, 0, 1, 0, 0]

/-- The texture coordinates of the first composition in `Core.cpp`
(`txd_vertices_1`). -/
def rectUV : List ℚ := [1, 1, 1, 0, 0, 0, 0, 1]

/-- A sequence of `add_textured_rect` calls applied in program order. -/
def addSeq (va : VertexArray) : List (List ℚ × List ℚ) → VertexArray
  | [] => va
  | c :: rest => addSeq (add_textured_rect va c.1 c.2) rest

/-- Total number of rectangles contributed by a sequence of calls
(each call contributes `vertices.size() / 8` rectangles). -/
def totalRects (calls : List (List ℚ × List ℚ)) : Nat :=
  (calls.map (fun c => c.1.length / 8)).sum

/-- The index pattern the specification states: rectangle `i`
(0-indexed, counted from base `n`) contributes
`{n+4i, n+4i+1, n+4i+3, n+4i+1, n+4i+2, n+4i+3}`. -/
def specIndices (n k : Nat) : List Nat :=
  (List.range k).flatMap fun i =>
    [n + 4 * i, n + 4 * i + 1, n + 4 * i + 3,
     n + 4 * i + 1, n + 4 * i + 2, n + 4 * i + 3]

/-! ## Texture atlas (`Texture2dArray`) -/

/-- Hardware limits reported by the graphics backend
(`GL_MAX_TEXTURE_IMAGE_UNITS`, `GL_MAX_3D_TEXTURE_SIZE`,
`GL_MAX_ARRAY_TEXTURE_LAYERS`). -/
structure HwLimits where
  maxTextureImageUnits : Nat
  maxTextureSize : Nat
  maxArrayTextureLayers : Nat
  deriving Repr, DecidableEq

/-- The specification's error kinds (§7).  In the code every one of
these is reported through `LOG_ERROR`, which prints and terminates the
process; the embedding surfaces them as `Except` errors raised at the
same program point, before any effect the source would have performed
afterwards. -/
inductive ErrKind where
  | ResourceExhausted
  | LimitExceeded
  | UnsupportedFormat
  | StateError
  deriving Repr, DecidableEq

/-- Process-global texture state: the static counter
`Texture2dArray::free_texture_images_unit_` (initialized to
`GL_TEXTURE0` in `Texture2dArray.cpp` and only ever incremented), a
fresh-name source for GL object ids, and the ids of the currently
allocated texture objects.  The counter is a C++ `unsigned int`; it
never comes near `2^32` because creation fails (and in the code the
process exits) once `maxTextureImageUnits` units are in use. -/
structure GlobalTexState where
  free_texture_images_unit : Nat
  next_id : Nat
  allocated : List Nat
  deriving Repr, DecidableEq

/-- Static initialization: `free_texture_images_unit_ = GL_TEXTURE0`;
no texture objects exist; GL object names start at 1 (0 is the
default texture). -/
def GlobalTexState.init : GlobalTexState :=
  { free_texture_images_unit := GL_TEXTURE0, next_id := 1, allocated := [] }

/-- A live `Texture2dArray`: GL object id, immutable dimensions
(C++ `int`), and the texture unit assigned at construction. -/
structure Texture2dArray where
  id : Nat
  width : Int
  height : Int
  depth : Int
  texture_unit : Nat
  deriving Repr, DecidableEq

/-- `Texture2dArray::Texture2dArray(width, height, depth)`: checks the
three hardware limits in source order — texture units
(`free_texture_images_unit_ - GL_TEXTURE0 >= max units`), texture
size (`width > max || height > max`), array depth (`depth > max`) —
each failing check reaching `LOG_ERROR`, i.e. an error result here;
on success takes the next free texture unit, allocates the GL texture
object and increments the global counter. -/
def mkTexture2dArray (hw : HwLimits) (g : GlobalTexState)
    (width height depth : Int) : Except ErrKind (Texture2dArray × GlobalTexState) :=
  if hw.maxTextureImageUnits ≤ g.free_texture_images_unit - GL_TEXTURE0 then
    .error .ResourceExhausted
  else if (hw.maxTextureSize : Int) < width ∨ (hw.maxTextureSize : Int) < height then
    .error .LimitExceeded
  else if (hw.maxArrayTextureLayers : Int) < depth then
    .error .LimitExceeded
  else
    .ok ({ id := g.next_id
           width := width
           height := height
           depth := depth
           texture_unit := g.free_texture_images_unit },
         { free_texture_images_unit := g.free_texture_images_unit + 1
           next_id := g.next_id + 1
           allocated := g.allocated ++ [g.next_id] })

/-- `Texture2dArray::~Texture2dArray()`: deletes the GL texture object
but does not touch `free_texture_images_unit_` — texture units are
never released. -/
def destroyTexture2dArray (g : GlobalTexState) (t : Texture2dArray) :
    GlobalTexState :=
  { g with allocated := g.allocated.erase t.id }

/-- A sequence of atlas creations in program order, failing on the
first failing constructor (in the code the process would have
exited there). -/
def mkSeq (hw : HwLimits) (g : GlobalTexState) :
    List (Int × Int × Int) → Except ErrKind (List Texture2dArray × GlobalTexState)
  | [] => .ok ([], g)
  | r :: rest =>
      match mkTexture2dArray hw g r.1 r.2.1 r.2.2 with
      | .error e => .error e
      | .ok (t, g') =>
          match mkSeq hw g' rest with
          | .error e => .error e
          | .ok (ts, g'') => .ok (t :: ts, g'')

/-- The set of allocated texture objects observable after a (possibly
failing) creation: on failure the code has exited before
`glGenTextures`, so the state is the one from before the call. -/
def allocatedAfter (hw : HwLimits) (g : GlobalTexState)
    (width height depth : Int) : List Nat :=
  match mkTexture2dArray hw g width height depth with
  | .error _ => g.allocated
  | .ok (_, g') => g'.allocated

/-! ## Atlas layer (`Texture2dArrayLayer`) -/

/-- A `Texture2dArrayLayer`: non-owning reference to its atlas and the
layer's z-offset (C++ `int`). -/
structure Texture2dArrayLayer where
  texture2dArray : Texture2dArray
  z_offset : Int
  deriving Repr, DecidableEq

/-- The GPU write performed by a successful
`Texture2dArrayLayer::add_texture` call: the pixel-store settings in
force and the `glTexSubImage3D` arguments.  The source pixel pointer
is opaque and omitted. -/
structure SubimageUpload where
  unpackRowLength : Int
  unpackSkipPixels : Int
  unpackSkipRows : Int
  xoffset : Int
  yoffset : Int
  zoffset : Int
  width : Int
  height : Int
  format : Nat
  deriving Repr, DecidableEq

/-- `Texture2dArrayLayer::add_texture(...)`: channel count 4 selects
`GL_RGBA`, 3 selects `GL_RGB`, anything else reaches `LOG_ERROR`
("Undefined image format.") — an error result here, before any GL
call.  On success the row skip into the source is
`img_height - img_y_offset - subtexture_hight`
(`GL_UNPACK_SKIP_ROWS`), the pixel skip is `img_x_offset` and the row
length is `img_width`. -/
def add_texture (layer : Texture2dArrayLayer)
    (subtexture_x_offset subtexture_y_offset : Int)
    (subtexture_width subtexture_hight : Int)
    (img_x_offset img_y_offset : Int)
    (img_width img_height : Int)
    (img_channels_count : Int) : Except ErrKind SubimageUpload :=
  if img_channels_count = 4 then
    .ok { unpackRowLength := img_width
          unpackSkipPixels := img_x_offset
          unpackSkipRows := img_height - img_y_offset - subtexture_hight
          xoffset := subtexture_x_offset
          yoffset := subtexture_y_offset
          zoffset := layer.z_offset
          width := subtexture_width
          height := subtexture_hight
          format := GL_RGBA }
  else if img_channels_count = 3 then
    .ok { unpackRowLength := img_width
          unpackSkipPixels := img_x_offset
          unpackSkipRows := img_height - img_y_offset - subtexture_hight
          xoffset := subtexture_x_offset
          yoffset := subtexture_y_offset
          zoffset := layer.z_offset
          width := subtexture_width
          height := subtexture_hight
          format := GL_RGB }
  else
    .error .UnsupportedFormat

/-! ## Sprite renderer (`Renderer`) -/

/-- One GPU-visible action emitted by the renderer.  Matrix and
vector payloads are carried opaquely (the modelled code never computes
with them). -/
inductive GLCmd where
  | bindTexture2dArray (id : Nat)
  | setInt (uniform : String) (value : Int)
  | setVec2 (uniform : String) (value : ℚ × ℚ)
  | setMat4 (uniform : String)
  | drawElements (mode : Nat) (count : Nat) (offset : Nat)
  deriving Repr, DecidableEq

/-- The function-local static state-diff cache of
`Renderer::draw_sprite`: `prev_texture_2d_array_id`,
`prev_texture_unit`, `prev_texture_2d_array_z_offset`.  Being local
statics, these are process-wide — shared by every `Renderer`
instance — and zero-initialized at first use. -/
structure DrawCache where
  prev_texture_2d_array_id : Nat
  prev_texture_unit : Int
  prev_texture_2d_array_z_offset : Int
  deriving Repr, DecidableEq

/-- Zero initialization of the local statics. -/
def DrawCache.init : DrawCache :=
  { prev_texture_2d_array_id := 0
    prev_texture_unit := 0
    prev_texture_2d_array_z_offset := 0 }

/-- A `Sprite` (`Sprite.hpp`): an `IndicesData` and a layer
reference. -/
structure Sprite where
  indices_data : IndicesData
  texture_2d_array_layer : Texture2dArrayLayer
  deriving Repr, DecidableEq

/-- `Renderer::Renderer(shader, scene_size)`: computes the
orthographic projection and uploads it as `uf_projection`.  It does
not touch `draw_sprite`'s static cache. -/
def mkRenderer (cache : DrawCache) : DrawCache × List GLCmd :=
  (cache, [GLCmd.setMat4 "uf_projection"])

/-- `Renderer::draw_sprite(sprite, pos, size)`: binds the sprite's
texture 2d array only if its id differs from the cached one; uploads
`uf_txd_unit` (as `unit - GL_TEXTURE0`) only if the unit differs;
uploads `uf_txd_array_z_offset` only if the layer differs; always
uploads `uf_model_pos` and `uf_model_size`; then issues
`glDrawElements` from the sprite's `IndicesData`.  Returns the updated
cache and the emitted command trace. -/
def draw_sprite (cache : DrawCache) (sprite : Sprite) (pos size : ℚ × ℚ) :
    DrawCache × List GLCmd :=
  let cur_texture_2d_array_id := sprite.texture_2d_array_layer.texture2dArray.id
  let cur_texture_unit : Int :=
    sprite.texture_2d_array_layer.texture2dArray.texture_unit
  let cur_texture_2d_array_z_offset := sprite.texture_2d_array_layer.z_offset
  let bindCmds :=
    if cache.prev_texture_2d_array_id ≠ cur_texture_2d_array_id then
      [GLCmd.bindTexture2dArray cur_texture_2d_array_id]
    else []
  let unitCmds :=
    if cache.prev_texture_unit ≠ cur_texture_unit then
      [GLCmd.setInt "uf_txd_unit" (cur_texture_unit - (GL_TEXTURE0 : Int))]
    else []
  let zCmds :=
    if cache.prev_texture_2d_array_z_offset ≠ cur_texture_2d_array_z_offset then
      [GLCmd.setInt "uf_txd_array_z_offset" cur_texture_2d_array_z_offset]
    else []
  ({ prev_texture_2d_array_id := cur_texture_2d_array_id
     prev_texture_unit := cur_texture_unit
     prev_texture_2d_array_z_offset := cur_texture_2d_array_z_offset },
   bindCmds ++ unitCmds ++ zCmds ++
   [GLCmd.setVec2 "uf_model_pos" pos, GLCmd.setVec2 "uf_model_size" size,
    GLCmd.drawElements sprite.indices_data.mode sprite.indices_data.count
      sprite.indices_data.offset])

/-- Number of texture-array binds in a command trace. -/
def countBinds (l : List GLCmd) : Nat :=
  (l.filter fun c => match c with
    | GLCmd.bindTexture2dArray _ => true
    | _ => false).length

/-- Number of integer-uniform writes to a given uniform name. -/
def countSetInt (uniform : String) (l : List GLCmd) : Nat :=
  (l.filter fun c => match c with
    | GLCmd.setInt u _ => u = uniform
    | _ => false).length

/-- Number of vec2-uniform writes to a given uniform name. -/
def countSetVec2 (uniform : String) (l : List GLCmd) : Nat :=
  (l.filter fun c => match c with
    | GLCmd.setVec2 u _ => u = uniform
    | _ => false).length

/-- A concrete layer used in closed statements: layer 0 of a
`512×512×2` atlas (`Core.cpp`'s `layer_0`) with GL object id 1 on the
first texture unit. -/
def sampleLayer : Texture2dArrayLayer :=
  { texture2dArray :=
      { id := 1, width := 512, height := 512, depth := 2
        texture_unit := GL_TEXTURE0 }
    z_offset := 0 }

/-- A concrete sprite used in closed counterexamples: `sampleLayer`
plus the first composition's six-index handle. -/
def sampleSprite : Sprite :=
  { indices_data := { mode := GL_TRIANGLES, count := 6, offset := 0 }
    texture_2d_array_layer := sampleLayer }

/-! ## Theorems -/

theorem specIndices_zero (n : Nat) : specIndices n 0 = [] := rfl

theorem specIndices_succ (n k : Nat) :
    specIndices n (k + 1) =
      [n, n + 1, n + 3, n + 1, n + 2, n + 3] ++ specIndices (n + 4) k := by
  unfold specIndices
  rw [List.range_succ_eq_map, List.flatMap_cons, List.flatMap_map]
  simp only [Nat.mul_zero, Nat.add_zero]
  congr 1
  apply List.flatMap_congr
  intro i _
  have h1 : n + 4 * i.succ = n + 4 + 4 * i := by omega
  rw [h1]

theorem specIndices_length (n k : Nat) : (specIndices n k).length = 6 * k := by
  induction k generalizing n with
  | zero => rfl
  | succ k ih =>
      rw [specIndices_succ, List.length_append, ih]
      simp only [List.length_cons, List.length_nil]
      omega

/-- When the counter stays below `2^32` no modular reduction happens:
the loop produces exactly the specification's pattern and the final
counter is `n + 4*k`. -/
theorem rectIndicesLoop_eq (k n : Nat) (h : n + 4 * k < UINT_MOD) :
    rectIndicesLoop n k = (specIndices n k, n + 4 * k) := by
  induction k generalizing n with
  | zero =>
      simp [rectIndicesLoop, specIndices_zero]
  | succ k ih =>
      have hn3 : n + 3 < UINT_MOD := by omega
      have hn4 : n + 4 ≤ UINT_MOD := by omega
      have hrec : (n + 4) + 4 * k < UINT_MOD := by omega
      have h4 : (n + 4) % UINT_MOD = n + 4 := Nat.mod_eq_of_lt (by omega)
      rw [rectIndicesLoop, h4, ih _ hrec, specIndices_succ]
      simp only [Prod.mk.injEq]
      constructor
      · congr 1
        have e0 : n % UINT_MOD = n := Nat.mod_eq_of_lt (by omega)
        have e1 : (n + 1) % UINT_MOD = n + 1 := Nat.mod_eq_of_lt (by omega)
        have e2 : (n + 2) % UINT_MOD = n + 2 := Nat.mod_eq_of_lt (by omega)
        have e3 : (n + 3) % UINT_MOD = n + 3 := Nat.mod_eq_of_lt (by omega)
        rw [e0, e1, e2, e3]
      · omega

/-- Splitting a run of rectangles: the pattern for `a + b` rectangles
from base `n` is the pattern for `a` followed by the pattern for `b`
from base `n + 4*a`. -/
theorem specIndices_append (a b n : Nat) :
    specIndices n (a + b) = specIndices n a ++ specIndices (n + 4 * a) b := by
  induction a generalizing n with
  | zero => simp [specIndices_zero]
  | succ a ih =>
      have h1 : a + 1 + b = (a + b) + 1 := by omega
      rw [h1, specIndices_succ, specIndices_succ, ih]
      have h2 : n + 4 + 4 * a = n + 4 * (a + 1) := by omega
      rw [h2, List.append_assoc]

/-- Invariant of a run of `add_textured_rect` calls: as long as the
counter stays in `unsigned int` range, the indices grow by exactly the
specification pattern based at the old counter, and the counter
advances by four per rectangle. -/
theorem addSeq_spec (calls : List (List ℚ × List ℚ)) (va : VertexArray)
    (h : va.next_free_index_number + 4 * totalRects calls < UINT_MOD) :
    (addSeq va calls).indices =
        va.indices ++ specIndices va.next_free_index_number (totalRects calls) ∧
    (addSeq va calls).next_free_index_number =
        va.next_free_index_number + 4 * totalRects calls := by
  induction calls generalizing va with
  | nil =>
      simp [addSeq, totalRects, specIndices_zero]
  | cons c rest ih =>
      have htot : totalRects (c :: rest) = c.1.length / 8 + totalRects rest := by
        simp [totalRects]
      rw [htot] at h
      have hfirst : va.next_free_index_number + 4 * (c.1.length / 8) < UINT_MOD := by
        omega
      have hloop := rectIndicesLoop_eq (c.1.length / 8) va.next_free_index_number hfirst
      have hstep : add_textured_rect va c.1 c.2 =
          { vertices := va.vertices ++ c.1
            texture_vertices := va.texture_vertices ++ c.2
            indices := va.indices ++ specIndices va.next_free_index_number (c.1.length / 8)
            next_free_index_number :=
              va.next_free_index_number + 4 * (c.1.length / 8) } := by
        simp only [add_textured_rect, hloop]
      have hrec : (add_textured_rect va c.1 c.2).next_free_index_number
          + 4 * totalRects rest < UINT_MOD := by
        rw [hstep]
        simp only
        omega
      have ihh := ih (add_textured_rect va c.1 c.2) hrec
      rw [addSeq, htot]
      rcases ihh with ⟨ih1, ih2⟩
      rw [ih1, ih2, hstep]
      simp only
      constructor
      · rw [specIndices_append, List.append_assoc]
      · omega

/-- C1.  For every geometry batch built from a fresh `VertexArray` by
any sequence of `add_textured_rect` calls totalling `k` rectangles
(with the 32-bit counter not overflowing), exactly `6k` indices are
appended, the counter `next_free_index_number_` ends at `4k`, and the
i-th rectangle (0-indexed) contributes the indices
`{4i, 4i+1, 4i+3, 4i+1, 4i+2, 4i+3}`. -/
theorem add_rect_index_pattern (calls : List (List ℚ × List ℚ))
    (h : 4 * totalRects calls < UINT_MOD) :
    (addSeq VertexArray.init calls).indices =
        ((List.range (totalRects calls)).flatMap fun i =>
          [4 * i, 4 * i + 1, 4 * i + 3, 4 * i + 1, 4 * i + 2, 4 * i + 3]) ∧
    (addSeq VertexArray.init calls).indices.length = 6 * totalRects calls ∧
    (addSeq VertexArray.init calls).next_free_index_number = 4 * totalRects calls := by
  have h0 : (VertexArray.init).next_free_index_number + 4 * totalRects calls
      < UINT_MOD := by
    simpa [VertexArray.init] using h
  have hs := addSeq_spec calls VertexArray.init h0
  rcases hs with ⟨h1, h2⟩
  have hpat : specIndices 0 (totalRects calls) =
      (List.range (totalRects calls)).flatMap fun i =>
        [4 * i, 4 * i + 1, 4 * i + 3, 4 * i + 1, 4 * i + 2, 4 * i + 3] := by
    unfold specIndices
    apply List.flatMap_congr
    intro i _
    simp
  refine ⟨?_, ?_, ?_⟩
  · rw [h1]
    simp only [VertexArray.init]
    rw [List.nil_append, hpat]
  · rw [h1]
    simp only [VertexArray.init, List.nil_append]
    exact specIndices_length 0 _
  · rw [h2]
    simp [VertexArray.init]

/-- Witness for `add_rect_index_pattern`: two calls, each adding one
rectangle (eight floats), from a fresh batch. -/
theorem add_rect_index_pattern_witness :
    4 * totalRects [(rectPos, rectUV), (rectPos, rectUV)] < UINT_MOD ∧
    (addSeq VertexArray.init [(rectPos, rectUV), (rectPos, rectUV)]).indices =
      [0, 1, 3, 1, 2, 3, 4, 5, 7, 5, 6, 7] := by
  refine ⟨by decide, ?_⟩
  have h := add_rect_index_pattern [(rectPos, rectUV), (rectPos, rectUV)] (by decide)
  rw [h.1]
  decide

/-- C8.  From a batch in its initial (empty) state, adding one
rectangle via `add_textured_rects` yields a handle with
`mode = GL_TRIANGLES`, `count = 6`, `byteOffset = 0`, and appends the
indices `[0, 1, 3, 1, 2, 3]`; in general the returned handle's byte
offset equals the number of indices already queued before the call
times `sizeof(uint32) = 4`. -/
theorem add_rects_handle :
    (add_textured_rects VertexArray.init rectPos rectUV).2 =
      { mode := GL_TRIANGLES, count := 6, offset := 0 } ∧
    (add_textured_rects VertexArray.init rectPos rectUV).1.indices =
      [0, 1, 3, 1, 2, 3] ∧
    ∀ (va : VertexArray) (v t : List ℚ),
      (add_textured_rects va v t).2.offset = va.indices.length * 4 := by
  refine ⟨by decide, by decide, ?_⟩
  intro va v t
  rfl

/-- C5 counterexample.  On the code, calling `add_textured_rect` after
`build()` does not fail with a `StateError`: it appends geometry to
the (now cleared) staging sequences — here six fresh indices
`[4, 5, 7, 5, 6, 7]` continuing from the pre-`build` counter. -/
theorem add_after_build_appends :
    (add_textured_rect
        (build (add_textured_rect VertexArray.init rectPos rectUV))
        rectPos rectUV).indices = [4, 5, 7, 5, 6, 7] ∧
    (add_textured_rect
        (build (add_textured_rect VertexArray.init rectPos rectUV))
        rectPos rectUV).indices ≠ [] := by
  refine ⟨by decide, by decide⟩

/-- C5 (amended).  After `build()` the three CPU-side staging
sequences are empty and the vertex counter is preserved; a subsequent
`add_textured_rect` call does not fail — it appends fresh geometry,
its indices continuing the pattern from the pre-`build` counter. -/
theorem build_clears_staging (va : VertexArray) (v t : List ℚ)
    (h : va.next_free_index_number + 4 * (v.length / 8) < UINT_MOD) :
    (build va).vertices = [] ∧
    (build va).texture_vertices = [] ∧
    (build va).indices = [] ∧
    (build va).next_free_index_number = va.next_free_index_number ∧
    (add_textured_rect (build va) v t).indices =
      specIndices va.next_free_index_number (v.length / 8) := by
  refine ⟨rfl, rfl, rfl, rfl, ?_⟩
  have hloop := rectIndicesLoop_eq (v.length / 8) va.next_free_index_number h
  simp only [add_textured_rect, build, hloop, List.nil_append]

/-- Witness for `build_clears_staging`: one rectangle added, batch
built, another rectangle added; its indices are `specIndices 4 1 =
[4, 5, 7, 5, 6, 7]`. -/
theorem build_clears_staging_witness :
    (add_textured_rect
        (build (add_textured_rect VertexArray.init rectPos rectUV))
        rectPos rectUV).indices = specIndices 4 1 := by
  have h := build_clears_staging (add_textured_rect VertexArray.init rectPos rectUV)
    rectPos rectUV (by decide)
  exact h.2.2.2.2

/-- The cache returned by `draw_sprite` always holds the sprite's
current id, unit and z-offset (each branch either finds the cached
value equal or updates it). -/
theorem draw_sprite_fst (c : DrawCache) (s : Sprite) (p q : ℚ × ℚ) :
    (draw_sprite c s p q).1 =
      { prev_texture_2d_array_id := s.texture_2d_array_layer.texture2dArray.id
        prev_texture_unit := (s.texture_2d_array_layer.texture2dArray.texture_unit : Int)
        prev_texture_2d_array_z_offset := s.texture_2d_array_layer.z_offset } := rfl

/-- Command counts of a single `draw_sprite` call: one bind /
unit-write / z-write exactly when the cached value differs, and the
position and size uniforms written exactly once each. -/
theorem draw_sprite_counts (c : DrawCache) (s : Sprite) (p q : ℚ × ℚ) :
    countBinds (draw_sprite c s p q).2 =
      (if c.prev_texture_2d_array_id = s.texture_2d_array_layer.texture2dArray.id
       then 0 else 1) ∧
    countSetInt "uf_txd_unit" (draw_sprite c s p q).2 =
      (if c.prev_texture_unit =
          (s.texture_2d_array_layer.texture2dArray.texture_unit : Int)
       then 0 else 1) ∧
    countSetInt "uf_txd_array_z_offset" (draw_sprite c s p q).2 =
      (if c.prev_texture_2d_array_z_offset = s.texture_2d_array_layer.z_offset
       then 0 else 1) ∧
    countSetVec2 "uf_model_pos" (draw_sprite c s p q).2 = 1 ∧
    countSetVec2 "uf_model_size" (draw_sprite c s p q).2 = 1 := by
  unfold draw_sprite
  by_cases h1 :
      c.prev_texture_2d_array_id = s.texture_2d_array_layer.texture2dArray.id <;>
  by_cases h2 : c.prev_texture_unit =
      (s.texture_2d_array_layer.texture2dArray.texture_unit : Int) <;>
  by_cases h3 :
      c.prev_texture_2d_array_z_offset = s.texture_2d_array_layer.z_offset <;>
  simp [h1, h2, h3, countBinds, countSetInt, countSetVec2, List.filter]

/-- C2 counterexample.  At process start (zero-initialized statics)
two consecutive `draw_sprite` calls with the same atlas, unit and
layer `z_offset = 0` issue one texture bind and one `uf_txd_unit`
write, but zero `uf_txd_array_z_offset` writes across the pair — not
exactly one of each, as the claim states: the initial cache already
holds `0` for the z-offset. -/
theorem draw_pair_missing_offset_write :
    countBinds
        ((draw_sprite DrawCache.init sampleSprite (0, 0) (512, 512)).2 ++
         (draw_sprite (draw_sprite DrawCache.init sampleSprite (0, 0) (512, 512)).1
            sampleSprite (0, 0) (512, 512)).2) = 1 ∧
    countSetInt "uf_txd_unit"
        ((draw_sprite DrawCache.init sampleSprite (0, 0) (512, 512)).2 ++
         (draw_sprite (draw_sprite DrawCache.init sampleSprite (0, 0) (512, 512)).1
            sampleSprite (0, 0) (512, 512)).2) = 1 ∧
    countSetInt "uf_txd_array_z_offset"
        ((draw_sprite DrawCache.init sampleSprite (0, 0) (512, 512)).2 ++
         (draw_sprite (draw_sprite DrawCache.init sampleSprite (0, 0) (512, 512)).1
            sampleSprite (0, 0) (512, 512)).2) ≠ 1 := by
  decide

/-- C2 (amended).  For two consecutive `draw_sprite` calls on the same
sprite from any cache state: the second call issues no texture bind
and no `uf_txd_unit` or `uf_txd_array_z_offset` write; the first call
issues each of those exactly when the corresponding cached value
differs from the sprite's (so at most one of each across the pair);
and `uf_model_pos` / `uf_model_size` are written exactly once on each
of the two calls. -/
theorem draw_pair_state_diff (c : DrawCache) (s : Sprite) (p1 q1 p2 q2 : ℚ × ℚ) :
    countBinds (draw_sprite (draw_sprite c s p1 q1).1 s p2 q2).2 = 0 ∧
    countSetInt "uf_txd_unit" (draw_sprite (draw_sprite c s p1 q1).1 s p2 q2).2 = 0 ∧
    countSetInt "uf_txd_array_z_offset"
      (draw_sprite (draw_sprite c s p1 q1).1 s p2 q2).2 = 0 ∧
    countBinds (draw_sprite c s p1 q1).2 =
      (if c.prev_texture_2d_array_id = s.texture_2d_array_layer.texture2dArray.id
       then 0 else 1) ∧
    countSetInt "uf_txd_unit" (draw_sprite c s p1 q1).2 =
      (if c.prev_texture_unit =
          (s.texture_2d_array_layer.texture2dArray.texture_unit : Int)
       then 0 else 1) ∧
    countSetInt "uf_txd_array_z_offset" (draw_sprite c s p1 q1).2 =
      (if c.prev_texture_2d_array_z_offset = s.texture_2d_array_layer.z_offset
       then 0 else 1) ∧
    countSetVec2 "uf_model_pos" (draw_sprite c s p1 q1).2 = 1 ∧
    countSetVec2 "uf_model_size" (draw_sprite c s p1 q1).2 = 1 ∧
    countSetVec2 "uf_model_pos" (draw_sprite (draw_sprite c s p1 q1).1 s p2 q2).2 = 1 ∧
    countSetVec2 "uf_model_size" (draw_sprite (draw_sprite c s p1 q1).1 s p2 q2).2 = 1 := by
  have hsecond := draw_sprite_counts (draw_sprite c s p1 q1).1 s p2 q2
  rw [draw_sprite_fst] at hsecond
  simp only [if_pos rfl] at hsecond
  have hfirst := draw_sprite_counts c s p1 q1
  exact ⟨hsecond.1, hsecond.2.1, hsecond.2.2.1, hfirst.1, hfirst.2.1,
    hfirst.2.2.1, hfirst.2.2.2.1, hfirst.2.2.2.2, hsecond.2.2.2.1,
    hsecond.2.2.2.2⟩

/-- C9 counterexample.  The draw state cache is a function-local
static of `draw_sprite`, not a renderer field: constructing a second
renderer after a draw leaves the cache holding the previous draw's
state (not the reset value), and the first draw through the new
renderer issues no texture bind — a freshly reset cache would have
bound atlas id 1 again. -/
theorem renderer_cache_not_reset :
    (mkRenderer (draw_sprite (mkRenderer DrawCache.init).1 sampleSprite
        (0, 0) (512, 512)).1).1 ≠ DrawCache.init ∧
    countBinds (draw_sprite
        (mkRenderer (draw_sprite (mkRenderer DrawCache.init).1 sampleSprite
            (0, 0) (512, 512)).1).1
        sampleSprite (0, 0) (512, 512)).2 = 0 := by
  decide

/-- C9 (amended).  The `draw_sprite` state cache is process-wide: it
persists across draw calls, and constructing a renderer leaves it
untouched, so a new renderer's first draw behaves exactly as a draw
through any previously constructed renderer would. -/
theorem renderer_construction_preserves_cache :
    (∀ c : DrawCache, (mkRenderer c).1 = c) ∧
    (∀ (c : DrawCache) (s : Sprite) (p q : ℚ × ℚ),
      draw_sprite (mkRenderer c).1 s p q = draw_sprite c s p q) :=
  ⟨fun _ => rfl, fun _ _ _ _ => rfl⟩

/-- C10.  The static cache is zero-initialized (atlas id 0, unit 0,
z-offset 0), so the first `draw_sprite` of the process uploads
`uf_txd_array_z_offset` exactly when the sprite's layer has a nonzero
`z_offset`: a zero offset is treated as already current even though no
offset was ever written. -/
theorem first_draw_offset_write_iff_nonzero :
    DrawCache.init.prev_texture_2d_array_id = 0 ∧
    DrawCache.init.prev_texture_unit = 0 ∧
    DrawCache.init.prev_texture_2d_array_z_offset = 0 ∧
    ∀ (s : Sprite) (p q : ℚ × ℚ),
      countSetInt "uf_txd_array_z_offset" (draw_sprite DrawCache.init s p q).2 =
        (if s.texture_2d_array_layer.z_offset = 0 then 0 else 1) := by
  refine ⟨rfl, rfl, rfl, ?_⟩
  intro s p q
  have h := (draw_sprite_counts DrawCache.init s p q).2.2.1
  rw [h]
  by_cases hz : s.texture_2d_array_layer.z_offset = 0 <;>
    simp [DrawCache.init, hz, eq_comm]

/-- A run of successful atlas creations: under the hardware limits the
sequence succeeds, the assigned texture units are the consecutive
values starting at the current counter, and the counter ends `N`
higher. -/
theorem mkSeq_ok (hw : HwLimits) (reqs : List (Int × Int × Int)) :
    ∀ g : GlobalTexState,
      (∀ r ∈ reqs, r.1 ≤ (hw.maxTextureSize : Int) ∧
        r.2.1 ≤ (hw.maxTextureSize : Int) ∧
        r.2.2 ≤ (hw.maxArrayTextureLayers : Int)) →
      GL_TEXTURE0 ≤ g.free_texture_images_unit →
      g.free_texture_images_unit - GL_TEXTURE0 + reqs.length ≤
        hw.maxTextureImageUnits →
      ∃ (ts : List Texture2dArray) (g' : GlobalTexState),
        mkSeq hw g reqs = .ok (ts, g') ∧
        ts.map (fun t => t.texture_unit) =
          List.range' g.free_texture_images_unit reqs.length ∧
        g'.free_texture_images_unit =
          g.free_texture_images_unit + reqs.length := by
  induction reqs with
  | nil =>
      intro g _ _ _
      exact ⟨[], g, rfl, by simp, by simp⟩
  | cons r rest ih =>
      intro g hvalid hg hunits
      have hr := hvalid r (List.mem_cons_self r rest)
      simp only [List.length_cons] at hunits
      have hcond1 :
          ¬ (hw.maxTextureImageUnits ≤
              g.free_texture_images_unit - GL_TEXTURE0) := by omega
      have hcond2 : ¬ ((hw.maxTextureSize : Int) < r.1 ∨
          (hw.maxTextureSize : Int) < r.2.1) := by
        push_neg
        exact ⟨hr.1, hr.2.1⟩
      have hcond3 : ¬ ((hw.maxArrayTextureLayers : Int) < r.2.2) :=
        not_lt.mpr hr.2.2
      have hmk : mkTexture2dArray hw g r.1 r.2.1 r.2.2 =
          .ok ({ id := g.next_id
                 width := r.1
                 height := r.2.1
                 depth := r.2.2
                 texture_unit := g.free_texture_images_unit },
               { free_texture_images_unit := g.free_texture_images_unit + 1
                 next_id := g.next_id + 1
                 allocated := g.allocated ++ [g.next_id] }) := by
        unfold mkTexture2dArray
        rw [if_neg hcond1, if_neg hcond2, if_neg hcond3]
      have hvalid' : ∀ r' ∈ rest, r'.1 ≤ (hw.maxTextureSize : Int) ∧
          r'.2.1 ≤ (hw.maxTextureSize : Int) ∧
          r'.2.2 ≤ (hw.maxArrayTextureLayers : Int) :=
        fun r' hmem => hvalid r' (List.mem_cons_of_mem r hmem)
      obtain ⟨ts, g', hseq, hmap, hfree⟩ :=
        ih { free_texture_images_unit := g.free_texture_images_unit + 1
             next_id := g.next_id + 1
             allocated := g.allocated ++ [g.next_id] }
          hvalid' (by simp only; omega) (by simp only; omega)
      refine ⟨{ id := g.next_id
                width := r.1
                height := r.2.1
                depth := r.2.2
                texture_unit := g.free_texture_images_unit } :: ts, g', ?_, ?_, ?_⟩
      · simp only [mkSeq, hmk, hseq]
      · simp only [List.map_cons, hmap, List.length_cons]
        rw [List.range'_succ]
      · rw [hfree]
        simp only [List.length_cons]
        omega

/-- C3.  Creating `N` atlases in sequence, each with dimensions within
the hardware limits and with enough texture units left, succeeds and
assigns `N` pairwise distinct texture units in strictly increasing
(consecutive) order; the global counter `free_texture_images_unit_`
advances by one per creation and destroying an atlas never decrements
it. -/
theorem atlas_units_strictly_increasing (hw : HwLimits) (g : GlobalTexState)
    (reqs : List (Int × Int × Int))
    (hvalid : ∀ r ∈ reqs, r.1 ≤ (hw.maxTextureSize : Int) ∧
      r.2.1 ≤ (hw.maxTextureSize : Int) ∧
      r.2.2 ≤ (hw.maxArrayTextureLayers : Int))
    (hg : GL_TEXTURE0 ≤ g.free_texture_images_unit)
    (hunits : g.free_texture_images_unit - GL_TEXTURE0 + reqs.length ≤
      hw.maxTextureImageUnits) :
    ∃ (ts : List Texture2dArray) (g' : GlobalTexState),
      mkSeq hw g reqs = .ok (ts, g') ∧
      ts.map (fun t => t.texture_unit) =
        List.range' g.free_texture_images_unit reqs.length ∧
      (ts.map (fun t => t.texture_unit)).Pairwise (· < ·) ∧
      g'.free_texture_images_unit =
        g.free_texture_images_unit + reqs.length ∧
      ∀ (g₂ : GlobalTexState) (t : Texture2dArray),
        (destroyTexture2dArray g₂ t).free_texture_images_unit =
          g₂.free_texture_images_unit := by
  obtain ⟨ts, g', hseq, hmap, hfree⟩ := mkSeq_ok hw reqs g hvalid hg hunits
  refine ⟨ts, g', hseq, hmap, ?_, hfree, fun _ _ => rfl⟩
  rw [hmap]
  exact List.pairwise_lt_range' _ _

/-- Witness for `atlas_units_strictly_increasing`: three atlases
created from the initial state on hardware with 32 texture units,
max size 4096 and max 256 layers. -/
theorem atlas_units_strictly_increasing_witness :
    ∃ (ts : List Texture2dArray) (g' : GlobalTexState),
      mkSeq { maxTextureImageUnits := 32, maxTextureSize := 4096,
              maxArrayTextureLayers := 256 }
          GlobalTexState.init [(512, 512, 2), (256, 256, 1), (64, 64, 4)] =
        .ok (ts, g') ∧
      ts.map (fun t => t.texture_unit) =
        List.range' GlobalTexState.init.free_texture_images_unit 3 ∧
      (ts.map (fun t => t.texture_unit)).Pairwise (· < ·) ∧
      g'.free_texture_images_unit =
        GlobalTexState.init.free_texture_images_unit + 3 ∧
      ∀ (g₂ : GlobalTexState) (t : Texture2dArray),
        (destroyTexture2dArray g₂ t).free_texture_images_unit =
          g₂.free_texture_images_unit :=
  atlas_units_strictly_increasing
    { maxTextureImageUnits := 32, maxTextureSize := 4096,
      maxArrayTextureLayers := 256 }
    GlobalTexState.init [(512, 512, 2), (256, 256, 1), (64, 64, 4)]
    (by decide) (by decide) (by decide)

/-- C6.  An atlas creation whose depth exceeds the hardware's
max-array-texture-layers limit (the earlier unit and size checks
passing) fails with `LimitExceeded`, and the observable allocated
texture objects are unchanged — the failure occurs before
`glGenTextures`. -/
theorem atlas_depth_limit_exceeded (hw : HwLimits) (g : GlobalTexState)
    (width height depth : Int)
    (hunits : g.free_texture_images_unit - GL_TEXTURE0 <
      hw.maxTextureImageUnits)
    (hwidth : width ≤ (hw.maxTextureSize : Int))
    (hheight : height ≤ (hw.maxTextureSize : Int))
    (hdepth : (hw.maxArrayTextureLayers : Int) < depth) :
    mkTexture2dArray hw g width height depth = .error .LimitExceeded ∧
    allocatedAfter hw g width height depth = g.allocated := by
  have h1 : ¬ (hw.maxTextureImageUnits ≤
      g.free_texture_images_unit - GL_TEXTURE0) := not_le.mpr hunits
  have h2 : ¬ ((hw.maxTextureSize : Int) < width ∨
      (hw.maxTextureSize : Int) < height) := by
    push_neg
    exact ⟨hwidth, hheight⟩
  have hmk : mkTexture2dArray hw g width height depth =
      .error .LimitExceeded := by
    unfold mkTexture2dArray
    rw [if_neg h1, if_neg h2, if_pos hdepth]
  refine ⟨hmk, ?_⟩
  unfold allocatedAfter
  rw [hmk]

/-- Witness for `atlas_depth_limit_exceeded`: a `512×512×300` request
against a 256-layer limit from the initial state. -/
theorem atlas_depth_limit_exceeded_witness :
    mkTexture2dArray
        { maxTextureImageUnits := 32, maxTextureSize := 4096,
          maxArrayTextureLayers := 256 }
        GlobalTexState.init 512 512 300 = .error .LimitExceeded ∧
    allocatedAfter
        { maxTextureImageUnits := 32, maxTextureSize := 4096,
          maxArrayTextureLayers := 256 }
        GlobalTexState.init 512 512 300 = GlobalTexState.init.allocated :=
  atlas_depth_limit_exceeded
    { maxTextureImageUnits := 32, maxTextureSize := 4096,
      maxArrayTextureLayers := 256 }
    GlobalTexState.init 512 512 300
    (by decide) (by decide) (by decide) (by decide)

/-- C4.  For every `add_texture` call with a supported channel count,
the vertical skip into the source buffer (`GL_UNPACK_SKIP_ROWS`)
equals `img_height - img_y_offset - subtexture_hight`
(`srcH - srcY - subH`). -/
theorem add_texture_row_skip (layer : Texture2dArrayLayer)
    (sx sy sw sh ix iy iw ih ch : Int) (hch : ch = 3 ∨ ch = 4) :
    ∃ u, add_texture layer sx sy sw sh ix iy iw ih ch = .ok u ∧
      u.unpackSkipRows = ih - iy - sh := by
  rcases hch with h | h <;> subst h
  · refine ⟨{ unpackRowLength := iw, unpackSkipPixels := ix
              unpackSkipRows := ih - iy - sh, xoffset := sx, yoffset := sy
              zoffset := layer.z_offset, width := sw, height := sh
              format := GL_RGB }, ?_, rfl⟩
    unfold add_texture
    rw [if_neg (by decide), if_pos rfl]
  · refine ⟨{ unpackRowLength := iw, unpackSkipPixels := ix
              unpackSkipRows := ih - iy - sh, xoffset := sx, yoffset := sy
              zoffset := layer.z_offset, width := sw, height := sh
              format := GL_RGBA }, ?_, rfl⟩
    unfold add_texture
    rw [if_pos rfl]

/-- Witness for `add_texture_row_skip`: the spec's end-to-end
scenario — a `128×128` subimage at `(0,0)` from a `512×512`
4-channel source with `srcX = srcY = 0`; the computed skip is
`512 - 0 - 128 = 384`. -/
theorem add_texture_row_skip_witness :
    ∃ u, add_texture sampleLayer 0 0 128 128 0 0 512 512 4 = .ok u ∧
      u.unpackSkipRows = 384 := by
  obtain ⟨u, hu, hr⟩ :=
    add_texture_row_skip sampleLayer 0 0 128 128 0 0 512 512 4 (Or.inr rfl)
  refine ⟨u, hu, ?_⟩
  rw [hr]
  decide

/-- C7.  An `add_texture` call whose channel count is neither 3 nor 4
fails with `UnsupportedFormat` and performs no GPU write: no
`SubimageUpload` is produced (in the code, `LOG_ERROR` terminates
before the bind, the pixel-store calls and `glTexSubImage3D`). -/
theorem add_texture_unsupported_format (layer : Texture2dArrayLayer)
    (sx sy sw sh ix iy iw ih ch : Int) (h3 : ch ≠ 3) (h4 : ch ≠ 4) :
    add_texture layer sx sy sw sh ix iy iw ih ch =
      .error .UnsupportedFormat ∧
    ∀ u : SubimageUpload,
      add_texture layer sx sy sw sh ix iy iw ih ch ≠ .ok u := by
  have hmk : add_texture layer sx sy sw sh ix iy iw ih ch =
      .error .UnsupportedFormat := by
    unfold add_texture
    rw [if_neg h4, if_neg h3]
  refine ⟨hmk, fun u h => ?_⟩
  rw [hmk] at h
  exact Except.noConfusion h

/-- Witness for `add_texture_unsupported_format`: `channels = 5`. -/
theorem add_texture_unsupported_format_witness :
    add_texture sampleLayer 0 0 128 128 0 0 512 512 5 =
      .error .UnsupportedFormat ∧
    ∀ u : SubimageUpload,
      add_texture sampleLayer 0 0 128 128 0 0 512 512 5 ≠ .ok u :=
  add_texture_unsupported_format sampleLayer 0 0 128 128 0 0 512 512 5
    (by decide) (by decide)

end EphProject
